import Mathlib

/-!
Verification of the discord-notify daemon core (src/daemon/pending.ts,
src/daemon/discord.ts, src/daemon/server.ts, src/shared/config.ts).

The TypeScript source is shallowly embedded: JavaScript objects used as
string-keyed records become association lists, `Record` assignment and
`delete` become `aupsert` and `aerase`, and the Node timer API becomes an
explicit pool of scheduled callbacks (`scheduled`, pairs of a timer handle
and the request id it will fire for) together with the manager's
`timers` map from request id to timer handle, exactly mirroring
`this.timers : Map<string, NodeJS.Timeout>`.  Real-time delays are
abstracted: a scheduled timer fires when the environment chooses to
deliver the corresponding `fireTimer` event.  Each event handler runs to
completion atomically, matching the single-threaded event-loop model.
-/

/-! ## Association lists: `Record<string, T>` objects -/

def alookup {α : Type} : List (String × α) → String → Option α
  | [], _ => none
  | (k, v) :: rest, key => if k = key then some v else alookup rest key

/-- Record assignment `obj[key] = v`: overwrite in place, else append. -/
def aupsert {α : Type} : List (String × α) → String → α → List (String × α)
  | [], key, v => [(key, v)]
  | (k, w) :: rest, key, v =>
    if k = key then (k, v) :: rest else (k, w) :: aupsert rest key v

/-- Record deletion `delete obj[key]`. -/
def aerase {α : Type} : List (String × α) → String → List (String × α)
  | [], _ => []
  | (k, v) :: rest, key =>
    if k = key then aerase rest key else (k, v) :: aerase rest key

/-! ## JavaScript primitives used by the source -/

/-- JavaScript `a || b` for `a : number | undefined` as used with positive
defaults: `undefined` and `0` are falsy. -/
def jsOrNat : Option Nat → Nat → Nat
  | some n, d => if n = 0 then d else n
  | none, d => d

/-- JavaScript `a || false` for `a : boolean | undefined`. -/
def jsOrBool : Option Bool → Bool
  | some b => b
  | none => false

/-- JavaScript `s.split(c)` for a single-character separator, on the
character list. -/
def splitOnChar (c : Char) : List Char → List Char → List (List Char)
  | [], acc => [acc.reverse]
  | x :: rest, acc =>
    if x = c then acc.reverse :: splitOnChar c rest []
    else splitOnChar c rest (x :: acc)

/-- The split `customId.split(":")`, returning Lean strings. -/
def jsSplitColon (s : String) : List String :=
  (splitOnChar ':' s.data []).map (fun cs => String.mk cs)

def leadingDigits : List Char → List Char
  | [] => []
  | c :: rest => if c.isDigit then c :: leadingDigits rest else []

def digitsVal (l : List Char) : Nat :=
  l.foldl (fun n c => n * 10 + (c.toNat - 48)) 0

/-- JavaScript `parseInt(s, 10)`: skip leading whitespace, optional sign,
then the longest run of decimal digits; `none` models `NaN` (no digits). -/
def jsParseInt (s : String) : Option Int :=
  let chars := s.data.dropWhile (fun c => c.isWhitespace)
  match chars with
  | '-' :: rest =>
    let ds := leadingDigits rest
    if ds.isEmpty then none else some (-(digitsVal ds : Int))
  | '+' :: rest =>
    let ds := leadingDigits rest
    if ds.isEmpty then none else some ((digitsVal ds : Int))
  | rest =>
    let ds := leadingDigits rest
    if ds.isEmpty then none else some ((digitsVal ds : Int))

/-- JavaScript `arr[i]` for a possibly negative or out-of-range index:
`undefined` becomes `none`. -/
def jsIndex {α : Type} (l : List α) (i : Int) : Option α :=
  if 0 ≤ i then l.get? i.toNat else none

/-! ## Data model (src/shared/types.ts) -/

inductive ReqKind
  | send
  | ask
deriving DecidableEq

structure SessionInfo where
  pid : Nat
  sessionId : Option String
  sessionName : Option String
  cwd : String
  projectName : Option String
deriving DecidableEq

structure PendingRequest where
  id : String
  type : ReqKind
  message : String
  options : Option (List String)
  sessionInfo : SessionInfo
  discordMessageId : Option String
  createdAt : Nat
  timeout : Nat
  noWait : Bool
deriving DecidableEq

inductive PendingStatus
  | pending
  | answered
  | timeout
  | error
deriving DecidableEq

structure PendingResponse where
  requestId : String
  status : PendingStatus
  response : Option String
  answeredAt : Option Nat
  error : Option String
deriving DecidableEq

structure PendingStore where
  requests : List (String × PendingRequest)
  responses : List (String × PendingResponse)
deriving DecidableEq

structure TerminalInfo where
  pid : Nat
  kittyWindowId : Option Nat
  sessionId : Option String
  cwd : String
  active : Bool
deriving DecidableEq

structure SessionStore where
  messageToRequest : List (String × String)
  requestToTerminal : List (String × TerminalInfo)
deriving DecidableEq

/-- Mirror of src/shared/config.ts `Config`, flattened: `discordUserId` is
`config.discord.userId`, `defaultAsk` and `maxAsk` are
`config.timeouts.defaultAsk` and `config.timeouts.maxAsk`. -/
structure Config where
  socketPath : String
  dataDir : String
  discordUserId : String
  defaultAsk : Nat
  maxAsk : Nat
deriving DecidableEq

def Config.withMaxAsk (cfg : Config) (m : Nat) : Config :=
  { cfg with maxAsk := m }

/-! ## Persistence (PendingManager.loadPendingStore / loadSessionStore)

A backing file is missing, unparseable, or parses to a store value. -/

inductive FileState (α : Type)
  | missing
  | corrupt
  | valid (content : α)

def emptyPendingStore : PendingStore :=
  { requests := [], responses := [] }

def emptySessionStore : SessionStore :=
  { messageToRequest := [], requestToTerminal := [] }

def loadPendingStore : FileState PendingStore → PendingStore
  | FileState.valid s => s
  | _ => emptyPendingStore

def loadSessionStore : FileState SessionStore → SessionStore
  | FileState.valid s => s
  | _ => emptySessionStore

/-! ## PendingManager state (src/daemon/pending.ts)

`scheduled` is the pool of live `setTimeout` callbacks the Node runtime
still holds: pairs of the timer handle and the request id the callback
will time out.  `timers` is the manager's `Map<string, NodeJS.Timeout>`.
`nextTimerId` generates fresh timer handles. -/

structure MState where
  pendingStore : PendingStore
  sessionStore : SessionStore
  timers : List (String × Nat)
  scheduled : List (Nat × String)
  nextTimerId : Nat
deriving DecidableEq

/-- The PendingManager constructor: load both stores; no timers exist. -/
def mkPendingManager (pendingFile : FileState PendingStore)
    (sessionFile : FileState SessionStore) : MState :=
  { pendingStore := loadPendingStore pendingFile
    sessionStore := loadSessionStore sessionFile
    timers := []
    scheduled := []
    nextTimerId := 0 }

/-- Number of live (still scheduled) timers whose callback targets `r`. -/
def liveTimersFor (st : MState) (r : String) : Nat :=
  (st.scheduled.filter (fun p => p.2 = r)).length

structure CreateOpts where
  options : Option (List String)
  timeout : Option Nat
  noWait : Option Bool

/-- PendingManager.createRequest.  `id` stands for the fresh `randomUUID()`
and `now` for `Date.now()`. -/
def MState.createRequest (cfg : Config) (st : MState) (id : String) (type : ReqKind)
    (message : String) (sessionInfo : SessionInfo) (opts : CreateOpts) (now : Nat) :
    MState × PendingRequest :=
  let request : PendingRequest :=
    { id := id
      type := type
      message := message
      options := opts.options
      sessionInfo := sessionInfo
      discordMessageId := none
      createdAt := now
      timeout := jsOrNat opts.timeout cfg.defaultAsk
      noWait := jsOrBool opts.noWait }
  let terminal : TerminalInfo :=
    { pid := sessionInfo.pid
      kittyWindowId := none
      sessionId := sessionInfo.sessionId
      cwd := sessionInfo.cwd
      active := true }
  ({ st with
      pendingStore :=
        { st.pendingStore with requests := aupsert st.pendingStore.requests id request }
      sessionStore :=
        { st.sessionStore with
            requestToTerminal := aupsert st.sessionStore.requestToTerminal id terminal } },
    request)

def MState.getRequest (st : MState) (requestId : String) : Option PendingRequest :=
  alookup st.pendingStore.requests requestId

def MState.getRequestByMessageId (st : MState) (discordMessageId : String) :
    Option PendingRequest :=
  match alookup st.sessionStore.messageToRequest discordMessageId with
  | some requestId => alookup st.pendingStore.requests requestId
  | none => none

def MState.getTerminal (st : MState) (requestId : String) : Option TerminalInfo :=
  alookup st.sessionStore.requestToTerminal requestId

/-- PendingManager.startTimeout: schedule a fresh callback and record its
handle in the `timers` map.  NOTE (faithful to source): the previous map
entry is overwritten without clearing the old timer.  The millisecond
duration is abstracted away (timers fire via explicit events). -/
def MState.startTimeout (st : MState) (requestId : String) (_timeoutMs : Nat) : MState :=
  let timer := st.nextTimerId
  { st with
      scheduled := (timer, requestId) :: st.scheduled
      timers := aupsert st.timers requestId timer
      nextTimerId := st.nextTimerId + 1 }

/-- PendingManager.clearTimeout (the private method): cancel the mapped
timer, if any, and drop the map entry. -/
def MState.clearTimeoutFor (st : MState) (requestId : String) : MState :=
  match alookup st.timers requestId with
  | some timer =>
    { st with
        scheduled := st.scheduled.filter (fun p => ¬ p.1 = timer)
        timers := aerase st.timers requestId }
  | none => st

/-- PendingManager.setDiscordMessageId. -/
def MState.setDiscordMessageId (st : MState) (requestId discordMessageId : String) :
    MState :=
  match st.getRequest requestId with
  | some request =>
    let st1 :=
      { st with
          pendingStore :=
            { st.pendingStore with
                requests := aupsert st.pendingStore.requests requestId
                  { request with discordMessageId := some discordMessageId } }
          sessionStore :=
            { st.sessionStore with
                messageToRequest :=
                  aupsert st.sessionStore.messageToRequest discordMessageId requestId } }
    if request.type = ReqKind.ask ∧ request.noWait = false then
      st1.startTimeout requestId request.timeout
    else st1
  | none => st

inductive PMEvent
  | response (requestId response : String) (answeredAt : Nat)
  | timeout (requestId : String)
deriving DecidableEq

/-- PendingManager.setResponse.  `now` stands for `Date.now()`. -/
def MState.setResponse (st : MState) (requestId response : String) (now : Nat) :
    MState × List PMEvent :=
  let st1 := st.clearTimeoutFor requestId
  let st2 :=
    { st1 with
        pendingStore :=
          { st1.pendingStore with
              responses := aupsert st1.pendingStore.responses requestId
                { requestId := requestId
                  status := PendingStatus.answered
                  response := some response
                  answeredAt := some now
                  error := none } } }
  (st2, [PMEvent.response requestId response now])

/-- PendingManager.handleTimeout: the timer callback body.  Deletes only
the `timers` map entry (the fired callback is gone from the pool already)
and records the timeout status unconditionally. -/
def MState.handleTimeout (st : MState) (requestId : String) : MState × List PMEvent :=
  let st1 := { st with timers := aerase st.timers requestId }
  let st2 :=
    { st1 with
        pendingStore :=
          { st1.pendingStore with
              responses := aupsert st1.pendingStore.responses requestId
                { requestId := requestId
                  status := PendingStatus.timeout
                  response := none
                  answeredAt := none
                  error := none } } }
  (st2, [PMEvent.timeout requestId])

/-- The Node runtime firing scheduled timer `timer`: remove it from the
pool and run `handleTimeout` on its request id.  A cleared (unscheduled)
handle never fires. -/
def MState.fireTimer (st : MState) (timer : Nat) : MState × List PMEvent :=
  match st.scheduled.find? (fun p => p.1 = timer) with
  | some p =>
    MState.handleTimeout
      { st with scheduled := st.scheduled.filter (fun q => ¬ q.1 = timer) } p.2
  | none => (st, [])

def MState.updateTerminalActive (st : MState) (requestId : String) (active : Bool) :
    MState :=
  match alookup st.sessionStore.requestToTerminal requestId with
  | some terminal =>
    { st with
        sessionStore :=
          { st.sessionStore with
              requestToTerminal := aupsert st.sessionStore.requestToTerminal requestId
                { terminal with active := active } } }
  | none => st

/-- PendingManager.cleanup. -/
def MState.cleanup (st : MState) (requestId : String) : MState :=
  let st1 := st.clearTimeoutFor requestId
  let messageToRequest1 :=
    match st1.getRequest requestId with
    | some request =>
      match request.discordMessageId with
      | some mid => aerase st1.sessionStore.messageToRequest mid
      | none => st1.sessionStore.messageToRequest
    | none => st1.sessionStore.messageToRequest
  { st1 with
      pendingStore :=
        { requests := aerase st1.pendingStore.requests requestId
          responses := aerase st1.pendingStore.responses requestId }
      sessionStore :=
        { messageToRequest := messageToRequest1
          requestToTerminal := aerase st1.sessionStore.requestToTerminal requestId } }

/-! ## Discord reply router (src/daemon/discord.ts)

`alive pid` models `process.kill(pid, 0)` succeeding (`isProcessAlive`).
`resumeAndInject` only spawns external processes, so it has no effect on
the embedded state. -/

structure InboundMessage where
  authorBot : Bool
  authorId : String
  isDM : Bool
  refMessageId : Option String
  content : String
deriving DecidableEq

/-- DiscordHandler.processResponse. -/
def DiscordHandler.processResponse (alive : Nat → Bool) (st : MState)
    (requestId response : String) (now : Nat) : MState × List PMEvent :=
  let st1 :=
    match st.getTerminal requestId with
    | some terminal =>
      if alive terminal.pid then st
      else st.updateTerminalActive requestId false
    | none => st
  st1.setResponse requestId response now

/-- DiscordHandler.handleMessage. -/
def DiscordHandler.handleMessage (cfg : Config) (alive : Nat → Bool) (st : MState)
    (m : InboundMessage) (now : Nat) : MState × List PMEvent :=
  if m.authorBot then (st, [])
  else if ¬ m.isDM then (st, [])
  else if ¬ m.authorId = cfg.discordUserId then (st, [])
  else
    match m.refMessageId with
    | none => (st, [])
    | some originalMessageId =>
      match st.getRequestByMessageId originalMessageId with
      | none => (st, [])
      | some request => DiscordHandler.processResponse alive st request.id m.content now

/-- DiscordHandler.handleButton.  The `interaction.update` call only edits
the Discord message, so it has no effect on the embedded state. -/
def DiscordHandler.handleButton (alive : Nat → Bool) (st : MState)
    (customId : String) (now : Nat) : MState × List PMEvent :=
  match jsSplitColon customId with
  | [p0, requestId, optionIndexStr] =>
    if ¬ p0 = "req" then (st, [])
    else
      match st.getRequest requestId with
      | none => (st, [])
      | some request =>
        match request.options with
        | none => (st, [])
        | some options =>
          let response :=
            match jsParseInt optionIndexStr with
            | some optionIndex => jsIndex options optionIndex
            | none => none
          match response with
          | none => (st, [])
          | some label =>
            if label = "" then (st, [])
            else DiscordHandler.processResponse alive st requestId label now
  | _ => (st, [])

/-! ## Server and IPC transport (src/daemon/server.ts)

Connections are numbered; `clients` is the server's
`Map<Socket, ConnectedClient>` and `log` the sequence of wire messages
written to client sockets, newest first. -/

inductive SMsg
  | ack (requestId discordMessageId : String)
  | response (requestId resp : String) (answeredAt : Nat)
  | timeoutMsg (requestId : String)
  | errorMsg (requestId : Option String) (code msg : String)
deriving DecidableEq

structure SClient where
  connId : Nat
  requestId : Option String
deriving DecidableEq

structure SState where
  mgr : MState
  clients : List SClient
  log : List (Nat × SMsg)
deriving DecidableEq

def initServer (pendingFile : FileState PendingStore)
    (sessionFile : FileState SessionStore) : SState :=
  { mgr := mkPendingManager pendingFile sessionFile
    clients := []
    log := [] }

def SState.sendTo (st : SState) (connId : Nat) (msg : SMsg) : SState :=
  { st with log := (connId, msg) :: st.log }

def findClient : List SClient → String → Option SClient
  | [], _ => none
  | c :: rest, r => if c.requestId = some r then some c else findClient rest r

/-- Server.notifyClient: deliver to the first connection awaiting the
request id, if any (the source returns after the first match). -/
def SState.notifyClient (st : SState) (requestId : String) (msg : SMsg) : SState :=
  match findClient st.clients requestId with
  | some c => st.sendTo c.connId msg
  | none => st

/-- The constructor-installed listeners: a manager "response" event becomes
a Response wire message, a "timeout" event a Timeout wire message. -/
def SState.dispatchEvent (st : SState) (ev : PMEvent) : SState :=
  match ev with
  | PMEvent.response r resp answeredAt =>
    st.notifyClient r (SMsg.response r resp answeredAt)
  | PMEvent.timeout r => st.notifyClient r (SMsg.timeoutMsg r)

def SState.dispatchEvents (st : SState) (evs : List PMEvent) : SState :=
  evs.foldl SState.dispatchEvent st

/-- Server.handleConnection registering a fresh socket. -/
def SState.connect (st : SState) (connId : Nat) : SState :=
  { st with clients := { connId := connId, requestId := none } :: st.clients }

/-- Socket close: the client is removed from the map. -/
def SState.disconnect (st : SState) (connId : Nat) : SState :=
  { st with clients := st.clients.filter (fun c => ¬ c.connId = connId) }

/-- Server.handleSend.  `id` is the fresh uuid, `mid` the Discord message
id returned by `sendMessage`. -/
def SState.handleSend (cfg : Config) (st : SState) (connId : Nat)
    (id message : String) (si : SessionInfo) (mid : String) (now : Nat) : SState :=
  let res := st.mgr.createRequest cfg id ReqKind.send message si
    { options := none, timeout := none, noWait := some true } now
  let mgr2 := res.1.setDiscordMessageId res.2.id mid
  ({ st with mgr := mgr2 }).sendTo connId (SMsg.ack res.2.id mid)

/-- Server.handleAsk: create the request, associate the socket with it for
response routing, attach the Discord message id, then ack. -/
def SState.handleAsk (cfg : Config) (st : SState) (connId : Nat)
    (id message : String) (options : Option (List String)) (timeoutOpt : Option Nat)
    (noWait : Bool) (si : SessionInfo) (mid : String) (now : Nat) : SState :=
  let res := st.mgr.createRequest cfg id ReqKind.ask message si
    { options := options, timeout := timeoutOpt, noWait := some noWait } now
  let clients2 := st.clients.map (fun c =>
    if c.connId = connId then { c with requestId := some res.2.id } else c)
  let mgr2 := res.1.setDiscordMessageId res.2.id mid
  ({ st with mgr := mgr2, clients := clients2 }).sendTo connId (SMsg.ack res.2.id mid)

/-- Server.handleStatus: only the NOT_FOUND error path is implemented. -/
def SState.handleStatus (st : SState) (connId : Nat) (requestId : String) : SState :=
  match st.mgr.getRequest requestId with
  | none =>
    st.sendTo connId (SMsg.errorMsg (some requestId) "NOT_FOUND" "Request not found")
  | some _ => st

/-- Server.handleCancel. -/
def SState.handleCancel (st : SState) (connId : Nat) (requestId : String) : SState :=
  ({ st with mgr := st.mgr.cleanup requestId }).sendTo connId (SMsg.ack requestId "")

/-- The external events driving the daemon.  Fresh identifiers, Discord
message ids and clock readings are supplied by the environment. -/
inductive Ev
  | connect (connId : Nat)
  | disconnect (connId : Nat)
  | sendReq (connId : Nat) (id message : String) (si : SessionInfo) (mid : String)
      (now : Nat)
  | askReq (connId : Nat) (id message : String) (options : Option (List String))
      (timeoutOpt : Option Nat) (noWait : Bool) (si : SessionInfo) (mid : String)
      (now : Nat)
  | statusReq (connId : Nat) (requestId : String)
  | cancelReq (connId : Nat) (requestId : String)
  | fireTimer (timer : Nat)
  | reply (m : InboundMessage) (now : Nat)
  | button (customId : String) (now : Nat)

def step (cfg : Config) (alive : Nat → Bool) (st : SState) : Ev → SState
  | Ev.connect connId => st.connect connId
  | Ev.disconnect connId => st.disconnect connId
  | Ev.sendReq connId id message si mid now =>
    st.handleSend cfg connId id message si mid now
  | Ev.askReq connId id message options timeoutOpt noWait si mid now =>
    st.handleAsk cfg connId id message options timeoutOpt noWait si mid now
  | Ev.statusReq connId requestId => st.handleStatus connId requestId
  | Ev.cancelReq connId requestId => st.handleCancel connId requestId
  | Ev.fireTimer timer =>
    let res := st.mgr.fireTimer timer
    ({ st with mgr := res.1 }).dispatchEvents res.2
  | Ev.reply m now =>
    let res := DiscordHandler.handleMessage cfg alive st.mgr m now
    ({ st with mgr := res.1 }).dispatchEvents res.2
  | Ev.button customId now =>
    let res := DiscordHandler.handleButton alive st.mgr customId now
    ({ st with mgr := res.1 }).dispatchEvents res.2

def run (cfg : Config) (alive : Nat → Bool) (st : SState) (evs : List Ev) : SState :=
  evs.foldl (step cfg alive) st

/-! ## Wire-log predicates for the ordering claims -/

/-- The request id a terminal wire message (Response or Timeout) reports.
Error messages are direct replies to client commands, never routed through
`notifyClient` to a waiting connection. -/
def isTerminalMsg : SMsg → Option String
  | SMsg.response r _ _ => some r
  | SMsg.timeoutMsg r => some r
  | _ => none

/-- In a newest-first log, every terminal message on a connection has an
Ack for the same request id delivered earlier on the same connection. -/
def ackBefore (log : List (Nat × SMsg)) : Prop :=
  ∀ pre cid m post, log = pre ++ (cid, m) :: post →
    ∀ r, isTerminalMsg m = some r →
      ∃ mid, (cid, SMsg.ack r mid) ∈ post

/-- Every connection currently awaiting a request has already been acked
for it. -/
def clientsAcked (st : SState) : Prop :=
  ∀ c ∈ st.clients, ∀ r, c.requestId = some r →
    ∃ mid, (c.connId, SMsg.ack r mid) ∈ st.log

def serverInv (st : SState) : Prop :=
  clientsAcked st ∧ ackBefore st.log

def terminalCount (log : List (Nat × SMsg)) (connId : Nat) : Nat :=
  (log.filter (fun e => e.1 = connId ∧ (isTerminalMsg e.2).isSome)).length

/-! ## Concrete fixtures used by witnesses and counterexamples -/

def siX : SessionInfo :=
  { pid := 42, sessionId := some "s1", sessionName := none, cwd := "/w",
    projectName := none }

def cfgX : Config :=
  { socketPath := "/tmp/dn.sock", dataDir := "/d", discordUserId := "u1",
    defaultAsk := 300000, maxAsk := 3600000 }

def aliveT : Nat → Bool := fun _ => true

def mgr0 : MState := mkPendingManager FileState.missing FileState.missing

/-- An Ask request "r1" with options, created on an empty manager. -/
def stAsk : MState :=
  (mgr0.createRequest cfgX "r1" ReqKind.ask "deploy" siX
    { options := some ["Yes", "No"], timeout := some 50, noWait := some false } 0).1

def reqAsk : PendingRequest :=
  (mgr0.createRequest cfgX "r1" ReqKind.ask "deploy" siX
    { options := some ["Yes", "No"], timeout := some 50, noWait := some false } 0).2

/-- State of "r1" after its Discord message "m1" was attached (timer 0
armed). -/
def stAttached : MState := stAsk.setDiscordMessageId "r1" "m1"

/-- The stored request "r1" after the attach updated its ref. -/
def reqAttached : PendingRequest := { reqAsk with discordMessageId := some "m1" }

/-- State of "r1" after its timeout timer fired: status timeout recorded. -/
def stTimedOut : MState := (stAttached.fireTimer 0).1

/-- A late human answer arriving after the recorded timeout. -/
def stLateAnswer : MState := (stTimedOut.setResponse "r1" "yes" 5).1

/-- An Ask request "r9" whose single option label is the empty string. -/
def stEmptyLbl : MState :=
  (mgr0.createRequest cfgX "r9" ReqKind.ask "pick" siX
    { options := some [""], timeout := some 50, noWait := some false } 0).1

def reqEmptyLbl : PendingRequest :=
  (mgr0.createRequest cfgX "r9" ReqKind.ask "pick" siX
    { options := some [""], timeout := some 50, noWait := some false } 0).2

/-- A reply-to-message event quoting Discord message "m1" from the
authorized user. -/
def replyToM1 : InboundMessage :=
  { authorBot := false, authorId := "u1", isDM := true, refMessageId := some "m1",
    content := "hi" }

/-- A reply quoting a Discord message id no store knows about. -/
def replyUnknown : InboundMessage :=
  { authorBot := false, authorId := "u1", isDM := true, refMessageId := some "zz",
    content := "chatter" }

/-- A persisted store holding one still-pending Ask, as left behind by a
daemon that crashed before the answer arrived. -/
def pendingAskReq : PendingRequest :=
  { id := "r1", type := ReqKind.ask, message := "q", options := none,
    sessionInfo := siX, discordMessageId := some "m1", createdAt := 0,
    timeout := 50, noWait := false }

def storeWithPendingAsk : PendingStore :=
  { requests := [("r1", pendingAskReq)], responses := [] }

def sessWithPendingAsk : SessionStore :=
  { messageToRequest := [("m1", "r1")]
    requestToTerminal :=
      [("r1", { pid := 42, kittyWindowId := none, sessionId := some "s1",
                cwd := "/w", active := true })] }

/-- The manager as reconstructed by a daemon restart over that store. -/
def restartedMgr : MState :=
  mkPendingManager (FileState.valid storeWithPendingAsk)
    (FileState.valid sessWithPendingAsk)

/-- One connection asks "r1", the timer fires, then a late button answer
arrives: the connection is sent Ack, Timeout, and then also Response. -/
def evsTwoTerminals : List Ev :=
  [Ev.connect 1,
   Ev.askReq 1 "r1" "deploy" (some ["Yes", "No"]) none false siX "m1" 0,
   Ev.fireTimer 0,
   Ev.button "req:r1:1" 10]

/-! ## Association list lemmas -/

theorem alookup_aupsert_self {α : Type} (m : List (String × α)) (key : String) (v : α) :
    alookup (aupsert m key v) key = some v := by
  induction m with
  | nil => simp [aupsert, alookup]
  | cons hd tl ih =>
    obtain ⟨k, w⟩ := hd
    by_cases hk : k = key
    · simp [aupsert, alookup, hk]
    · simp [aupsert, alookup, hk, ih]

theorem alookup_aupsert_ne {α : Type} (m : List (String × α)) (key key2 : String) (v : α)
    (h : key ≠ key2) : alookup (aupsert m key v) key2 = alookup m key2 := by
  induction m with
  | nil => simp [aupsert, alookup, h]
  | cons hd tl ih =>
    obtain ⟨k, w⟩ := hd
    by_cases hk : k = key
    · subst hk
      simp [aupsert, alookup, h]
    · simp [aupsert, alookup, hk, ih]

theorem alookup_aerase_self {α : Type} (m : List (String × α)) (key : String) :
    alookup (aerase m key) key = none := by
  induction m with
  | nil => simp [aerase, alookup]
  | cons hd tl ih =>
    obtain ⟨k, w⟩ := hd
    by_cases hk : k = key
    · simp [aerase, hk, ih]
    · simp [aerase, alookup, hk, ih]

theorem alookup_aerase_ne {α : Type} (m : List (String × α)) (key key2 : String)
    (h : key ≠ key2) : alookup (aerase m key) key2 = alookup m key2 := by
  induction m with
  | nil => simp [aerase]
  | cons hd tl ih =>
    obtain ⟨k, w⟩ := hd
    by_cases hk : k = key
    · subst hk
      simp [aerase, alookup, h, ih]
    · simp [aerase, alookup, hk, ih]

theorem aerase_of_absent {α : Type} (m : List (String × α)) (key : String)
    (h : alookup m key = none) : aerase m key = m := by
  induction m with
  | nil => rfl
  | cons hd tl ih =>
    obtain ⟨k, w⟩ := hd
    by_cases hk : k = key
    · simp [alookup, hk] at h
    · simp [alookup, hk] at h
      simp [aerase, hk, ih h]

/-- Erasing one key never invents entries: any surviving binding was
already present. -/
theorem alookup_aerase_sub {α : Type} (m : List (String × α)) (key key2 : String)
    (v : α) (h : alookup (aerase m key) key2 = some v) : alookup m key2 = some v := by
  by_cases hk : key = key2
  · subst hk
    rw [alookup_aerase_self] at h
    cases h
  · rw [alookup_aerase_ne m key key2 hk] at h
    exact h

/-! ## Manager-level helper lemmas -/

theorem clearTimeoutFor_pendingStore (st : MState) (r : String) :
    (st.clearTimeoutFor r).pendingStore = st.pendingStore := by
  unfold MState.clearTimeoutFor
  cases alookup st.timers r <;> rfl

theorem clearTimeoutFor_sessionStore (st : MState) (r : String) :
    (st.clearTimeoutFor r).sessionStore = st.sessionStore := by
  unfold MState.clearTimeoutFor
  cases alookup st.timers r <;> rfl

/-- setResponse always records an Answered response for the request,
whatever was recorded before. -/
theorem setResponse_lookup (st : MState) (r resp : String) (now : Nat) :
    alookup (st.setResponse r resp now).1.pendingStore.responses r =
      some { requestId := r, status := PendingStatus.answered, response := some resp,
             answeredAt := some now, error := none } := by
  simp [MState.setResponse, alookup_aupsert_self]

/-- processResponse ends in setResponse unconditionally. -/
theorem processResponse_lookup (alive : Nat → Bool) (st : MState) (r resp : String)
    (now : Nat) :
    alookup (DiscordHandler.processResponse alive st r resp now).1.pendingStore.responses
      r =
      some { requestId := r, status := PendingStatus.answered, response := some resp,
             answeredAt := some now, error := none } := by
  unfold DiscordHandler.processResponse
  exact setResponse_lookup _ r resp now

/-- A guard failure in handleMessage leaves the manager untouched and
emits nothing. -/
theorem handleMessage_ignored (cfg : Config) (alive : Nat → Bool) (st : MState)
    (m : InboundMessage) (now : Nat)
    (h : m.authorBot = true ∨ m.isDM = false ∨ ¬ m.authorId = cfg.discordUserId ∨
      m.refMessageId = none ∨
      ∃ mid, m.refMessageId = some mid ∧ st.getRequestByMessageId mid = none) :
    DiscordHandler.handleMessage cfg alive st m now = (st, []) := by
  unfold DiscordHandler.handleMessage
  rcases h with h | h | h | h | ⟨mid, h1, h2⟩ <;>
    cases hb : m.authorBot <;> cases hd : m.isDM <;> simp_all

/-! ## Claim C1: terminal-status immutability -/

/-- Claim C1 (counterexample): a late answer after a recorded timeout does
NOT leave the status TimedOut — setResponse overwrites it with Answered. -/
theorem C1_counterexample :
    (alookup stTimedOut.pendingStore.responses "r1").map (fun pr => pr.status) =
      some PendingStatus.timeout ∧
    (alookup stLateAnswer.pendingStore.responses "r1").map (fun pr => pr.status) =
      some PendingStatus.answered ∧
    ¬ (alookup stLateAnswer.pendingStore.responses "r1").map (fun pr => pr.status) =
      some PendingStatus.timeout := by
  decide

/-- Claim C1 (amended): a recorded terminal status is not immutable:
setResponse and handleTimeout overwrite the stored response entry
unconditionally, so the last writer wins; in particular a late answer
after a recorded timeout re-records the status as Answered. -/
theorem C1_last_writer_wins (st : MState) (r resp : String) (now : Nat) :
    alookup (st.setResponse r resp now).1.pendingStore.responses r =
      some { requestId := r, status := PendingStatus.answered, response := some resp,
             answeredAt := some now, error := none } ∧
    alookup (st.handleTimeout r).1.pendingStore.responses r =
      some { requestId := r, status := PendingStatus.timeout, response := none,
             answeredAt := none, error := none } :=
  ⟨setResponse_lookup st r resp now, by
    simp [MState.handleTimeout, alookup_aupsert_self]⟩

/-! ## Claim C3: timer discipline on double attach -/

/-- Claim C3 (counterexample): attaching the same Discord message id twice
to the outstanding Ask "r1" leaves two live timers for it. -/
theorem C3_counterexample :
    ((stAsk.setDiscordMessageId "r1" "m1").setDiscordMessageId "r1"
        "m1").getRequest "r1" ≠ none ∧
    alookup ((stAsk.setDiscordMessageId "r1" "m1").setDiscordMessageId "r1"
        "m1").pendingStore.responses "r1" = none ∧
    liveTimersFor ((stAsk.setDiscordMessageId "r1" "m1").setDiscordMessageId "r1"
        "m1") "r1" = 2 := by
  decide

/-- Claim C3 (amended): setDiscordMessageId called twice with the same ref
does not crash and the timers map keeps a single entry for the request,
but the first timer is not cleared before the second is started: the
request ends up with two live timers. -/
theorem C3_double_attach_two_live_timers (st : MState) (r mid : String)
    (req : PendingRequest) (hreq : st.getRequest r = some req)
    (hask : req.type = ReqKind.ask) (hnw : req.noWait = false) :
    liveTimersFor ((st.setDiscordMessageId r mid).setDiscordMessageId r mid) r =
      liveTimersFor st r + 2 ∧
    alookup ((st.setDiscordMessageId r mid).setDiscordMessageId r mid).timers r =
      some (st.nextTimerId + 1) := by
  have e1 : st.setDiscordMessageId r mid =
      { st with
          pendingStore :=
            { st.pendingStore with
                requests := aupsert st.pendingStore.requests r
                  { req with discordMessageId := some mid } }
          sessionStore :=
            { st.sessionStore with
                messageToRequest := aupsert st.sessionStore.messageToRequest mid r }
          scheduled := (st.nextTimerId, r) :: st.scheduled
          timers := aupsert st.timers r st.nextTimerId
          nextTimerId := st.nextTimerId + 1 } := by
    unfold MState.setDiscordMessageId
    rw [hreq]
    simp [hask, hnw, MState.startTimeout]
  rw [e1]
  unfold MState.setDiscordMessageId MState.getRequest
  simp only [alookup_aupsert_self]
  simp [hask, hnw, MState.startTimeout, liveTimersFor, alookup_aupsert_self,
    List.filter]

/-- Witness for C3_double_attach_two_live_timers at the concrete Ask "r1". -/
theorem C3_double_attach_witness :
    liveTimersFor ((stAsk.setDiscordMessageId "r1" "m1").setDiscordMessageId "r1"
        "m1") "r1" = liveTimersFor stAsk "r1" + 2 ∧
    alookup ((stAsk.setDiscordMessageId "r1" "m1").setDiscordMessageId "r1"
        "m1").timers "r1" = some (stAsk.nextTimerId + 1) :=
  C3_double_attach_two_live_timers stAsk "r1" "m1" reqAsk (by decide) (by decide)
    (by decide)

/-! ## Claim C4: restart with a pending Ask in the store -/

/-- Claim C4 (counterexample): the restarted manager holds the loaded
still-pending Ask but has armed no timer for it and recorded no TimedOut
status: the request is left permanently un-timeoutable. -/
theorem C4_counterexample :
    restartedMgr.getRequest "r1" = some pendingAskReq ∧
    pendingAskReq.type = ReqKind.ask ∧
    alookup restartedMgr.pendingStore.responses "r1" = none ∧
    alookup restartedMgr.timers "r1" = none ∧
    liveTimersFor restartedMgr "r1" = 0 := by
  decide

/-- Claim C4 (amended): on construction the manager loads the persisted
stores verbatim and arms no timer and records no status for any loaded
request; a loaded pending Ask stays pending with no timer. -/
theorem C4_restart_arms_nothing (pendingFile : FileState PendingStore)
    (sessionFile : FileState SessionStore) (r : String) :
    (mkPendingManager pendingFile sessionFile).pendingStore =
      loadPendingStore pendingFile ∧
    (mkPendingManager pendingFile sessionFile).sessionStore =
      loadSessionStore sessionFile ∧
    alookup (mkPendingManager pendingFile sessionFile).timers r = none ∧
    liveTimersFor (mkPendingManager pendingFile sessionFile) r = 0 :=
  ⟨rfl, rfl, rfl, rfl⟩

/-! ## Claim C8: load tolerates missing or corrupt backing files -/

/-- Claim C8: loading the persistent stores is total over every file
state; a missing or unparseable backing file yields the empty stores, and
any file state yields either the empty stores or the parsed content. -/
theorem C8_load_tolerates_corruption :
    loadPendingStore FileState.missing = emptyPendingStore ∧
    loadPendingStore FileState.corrupt = emptyPendingStore ∧
    loadSessionStore FileState.missing = emptySessionStore ∧
    loadSessionStore FileState.corrupt = emptySessionStore ∧
    (∀ f : FileState PendingStore, loadPendingStore f = emptyPendingStore ∨
      ∃ s, f = FileState.valid s ∧ loadPendingStore f = s) ∧
    (∀ f : FileState SessionStore, loadSessionStore f = emptySessionStore ∨
      ∃ s, f = FileState.valid s ∧ loadSessionStore f = s) := by
  refine ⟨rfl, rfl, rfl, rfl, ?_, ?_⟩ <;>
    intro f <;> cases f <;> simp [loadPendingStore, loadSessionStore]

/-! ## Claim C10: an in-range empty option label is ignored -/

/-- Claim C10: a button interaction selecting an in-range option whose
label is the empty string is ignored: the handler leaves the manager
unchanged and emits nothing, so no answer is recorded. -/
theorem C10_empty_label_ignored (alive : Nat → Bool) (st : MState)
    (customId : String) (now : Nat) (r ixStr : String) (req : PendingRequest)
    (options : List String) (i : Int)
    (hsplit : jsSplitColon customId = ["req", r, ixStr])
    (hreq : st.getRequest r = some req) (hopts : req.options = some options)
    (hparse : jsParseInt ixStr = some i) (hidx : jsIndex options i = some "") :
    DiscordHandler.handleButton alive st customId now = (st, []) := by
  simp [DiscordHandler.handleButton, hsplit, hreq, hopts, hparse, hidx]

/-- Witness for C10_empty_label_ignored on the concrete request "r9" with
option list containing one empty label, clicked at index 0. -/
theorem C10_empty_label_witness :
    DiscordHandler.handleButton aliveT stEmptyLbl "req:r9:0" 7 = (stEmptyLbl, []) :=
  C10_empty_label_ignored aliveT stEmptyLbl "req:r9:0" 7 "r9" "0" reqEmptyLbl [""]
    0 (by decide) (by decide) (by decide) (by decide) (by decide)

/-! ## Claim C9: timeout defaulting and the unread maxAsk -/

theorem step_maxAsk_irrelevant (cfg : Config) (m : Nat) (alive : Nat → Bool)
    (st : SState) (ev : Ev) :
    step (cfg.withMaxAsk m) alive st ev = step cfg alive st ev := by
  cases ev <;> rfl

theorem run_maxAsk_irrelevant (cfg : Config) (m : Nat) (alive : Nat → Bool)
    (st : SState) (evs : List Ev) :
    run (cfg.withMaxAsk m) alive st evs = run cfg alive st evs := by
  induction evs generalizing st with
  | nil => rfl
  | cons ev evs ih =>
    have e : run (cfg.withMaxAsk m) alive st (ev :: evs) =
        run (cfg.withMaxAsk m) alive (step (cfg.withMaxAsk m) alive st ev) evs := rfl
    rw [e, step_maxAsk_irrelevant]
    exact ih _

/-- Claim C9: createRequest treats a supplied timeout of 0 exactly like an
unspecified timeout (the configured default is stored), stores every
positive supplied timeout unchanged (no clamping to maxAsk), and no
daemon operation ever reads maxAsk: the whole event semantics is
invariant under changing it. -/
theorem C9_timeout_defaulting :
    (∀ (cfg : Config) (st : MState) (id : String) (ty : ReqKind) (msg : String)
        (si : SessionInfo) (o : Option (List String)) (w : Option Bool) (now : Nat),
      MState.createRequest cfg st id ty msg si
          { options := o, timeout := some 0, noWait := w } now =
        MState.createRequest cfg st id ty msg si
          { options := o, timeout := none, noWait := w } now) ∧
    (∀ (cfg : Config) (st : MState) (id : String) (ty : ReqKind) (msg : String)
        (si : SessionInfo) (o : Option (List String)) (w : Option Bool) (t now : Nat),
      0 < t →
      (MState.createRequest cfg st id ty msg si
          { options := o, timeout := some t, noWait := w } now).2.timeout = t) ∧
    (∀ (cfg : Config) (m : Nat) (alive : Nat → Bool) (st : SState) (evs : List Ev),
      run (cfg.withMaxAsk m) alive st evs = run cfg alive st evs) := by
  refine ⟨?_, ?_, ?_⟩
  · intro cfg st id ty msg si o w now
    rfl
  · intro cfg st id ty msg si o w t now ht
    have hne : ¬ t = 0 := Nat.pos_iff_ne_zero.mp ht
    simp [MState.createRequest, jsOrNat, hne]
  · intro cfg m alive st evs
    exact run_maxAsk_irrelevant cfg m alive st evs

/-- Witness for C9_timeout_defaulting: timeout 0 behaves as unspecified,
and 7200000 ms is stored verbatim although it exceeds cfgX.maxAsk. -/
theorem C9_timeout_defaulting_witness :
    (MState.createRequest cfgX mgr0 "r1" ReqKind.ask "q" siX
        { options := none, timeout := some 0, noWait := some false } 0 =
      MState.createRequest cfgX mgr0 "r1" ReqKind.ask "q" siX
        { options := none, timeout := none, noWait := some false } 0) ∧
    (MState.createRequest cfgX mgr0 "r1" ReqKind.ask "q" siX
        { options := none, timeout := some 7200000, noWait := some false } 0).2.timeout
      = 7200000 ∧
    cfgX.maxAsk < 7200000 :=
  ⟨C9_timeout_defaulting.1 cfgX mgr0 "r1" ReqKind.ask "q" siX none (some false) 0,
   C9_timeout_defaulting.2.1 cfgX mgr0 "r1" ReqKind.ask "q" siX none (some false)
     7200000 0 (by decide),
   by decide⟩

/-! ## Claim C6: unresolved or unauthorized replies are dropped -/

/-- Claim C6: an inbound reply whose replied-to message id resolves to no
known request — or whose sender is a bot, not in a DM, or not the
configured user, or which is no reply at all — leaves the manager state
(all four stores) unchanged and emits no event. -/
theorem C6_unresolved_reply_dropped (cfg : Config) (alive : Nat → Bool) (st : MState)
    (m : InboundMessage) (now : Nat)
    (h : m.authorBot = true ∨ m.isDM = false ∨ ¬ m.authorId = cfg.discordUserId ∨
      m.refMessageId = none ∨
      ∃ mid, m.refMessageId = some mid ∧ st.getRequestByMessageId mid = none) :
    DiscordHandler.handleMessage cfg alive st m now = (st, []) :=
  handleMessage_ignored cfg alive st m now h

/-- Witness for C6_unresolved_reply_dropped: a reply quoting the unknown
message id "zz" on a state holding the attached request "r1". -/
theorem C6_unresolved_reply_witness :
    DiscordHandler.handleMessage cfgX aliveT stAttached replyUnknown 3 =
      (stAttached, []) :=
  C6_unresolved_reply_dropped cfgX aliveT stAttached replyUnknown 3
    (Or.inr (Or.inr (Or.inr (Or.inr ⟨"zz", rfl, by decide⟩))))

/-! ## Claim C7: cleanup removes every trace of a request -/

theorem cleanup_pendingStore (st : MState) (r : String) :
    (st.cleanup r).pendingStore =
      { requests := aerase st.pendingStore.requests r
        responses := aerase st.pendingStore.responses r } := by
  unfold MState.cleanup
  simp [clearTimeoutFor_pendingStore]

theorem cleanup_requestToTerminal (st : MState) (r : String) :
    (st.cleanup r).sessionStore.requestToTerminal =
      aerase st.sessionStore.requestToTerminal r := by
  unfold MState.cleanup
  simp [clearTimeoutFor_sessionStore]

theorem cleanup_timers_none (st : MState) (r : String) :
    alookup (st.cleanup r).timers r = none := by
  unfold MState.cleanup MState.clearTimeoutFor
  cases ht : alookup st.timers r <;> simp [ht, alookup_aerase_self]

theorem cleanup_messageToRequest_cases (st : MState) (r : String) :
    (st.cleanup r).sessionStore.messageToRequest = st.sessionStore.messageToRequest ∨
    ∃ k, (st.cleanup r).sessionStore.messageToRequest =
      aerase st.sessionStore.messageToRequest k := by
  unfold MState.cleanup
  cases hq : (st.clearTimeoutFor r).getRequest r with
  | none => left; simp [hq, clearTimeoutFor_sessionStore]
  | some req =>
    cases hm : req.discordMessageId with
    | none => left; simp [hq, hm, clearTimeoutFor_sessionStore]
    | some mid => right; exact ⟨mid, by simp [hq, hm, clearTimeoutFor_sessionStore]⟩

theorem cleanup_messageToRequest_sub (st : MState) (r mid rid : String)
    (h : alookup (st.cleanup r).sessionStore.messageToRequest mid = some rid) :
    alookup st.sessionStore.messageToRequest mid = some rid := by
  rcases cleanup_messageToRequest_cases st r with he | ⟨k, he⟩
  · rw [he] at h; exact h
  · rw [he] at h; exact alookup_aerase_sub _ k mid rid h

/-- Claim C7: cleanup clears the request's mapped timer and deletes its
entries from the request map, the response map, the external-ref index and
the terminal-binding map; afterwards any reply quoting an external ref
that used to resolve to this request resolves to no request and is
dropped; and cleanup of an id present nowhere is a no-op. -/
theorem C7_cleanup_removes_all (st : MState) (r : String) :
    alookup (st.cleanup r).pendingStore.requests r = none ∧
    alookup (st.cleanup r).pendingStore.responses r = none ∧
    alookup (st.cleanup r).sessionStore.requestToTerminal r = none ∧
    alookup (st.cleanup r).timers r = none ∧
    (∀ req mid, st.getRequest r = some req → req.discordMessageId = some mid →
      alookup (st.cleanup r).sessionStore.messageToRequest mid = none) ∧
    (∀ mid, alookup st.sessionStore.messageToRequest mid = some r →
      (st.cleanup r).getRequestByMessageId mid = none) ∧
    (∀ (cfg : Config) (alive : Nat → Bool) (msg : InboundMessage) (now : Nat)
        (mid : String), msg.refMessageId = some mid →
      alookup st.sessionStore.messageToRequest mid = some r →
      DiscordHandler.handleMessage cfg alive (st.cleanup r) msg now =
        (st.cleanup r, [])) ∧
    (st.getRequest r = none → alookup st.pendingStore.responses r = none →
      alookup st.sessionStore.requestToTerminal r = none →
      alookup st.timers r = none → st.cleanup r = st) := by
  have h6 : ∀ mid, alookup st.sessionStore.messageToRequest mid = some r →
      (st.cleanup r).getRequestByMessageId mid = none := by
    intro mid hmid
    unfold MState.getRequestByMessageId
    cases hpost : alookup (st.cleanup r).sessionStore.messageToRequest mid with
    | none => rfl
    | some rid =>
      have hpre := cleanup_messageToRequest_sub st r mid rid hpost
      rw [hmid] at hpre
      injection hpre with hrid
      subst hrid
      simp [cleanup_pendingStore, alookup_aerase_self]
  refine ⟨?_, ?_, ?_, cleanup_timers_none st r, ?_, h6, ?_, ?_⟩
  · simp [cleanup_pendingStore, alookup_aerase_self]
  · simp [cleanup_pendingStore, alookup_aerase_self]
  · simp [cleanup_requestToTerminal, alookup_aerase_self]
  · intro req mid hreq hmid
    have hq : (st.clearTimeoutFor r).getRequest r = some req := by
      unfold MState.getRequest
      rw [clearTimeoutFor_pendingStore]
      exact hreq
    unfold MState.cleanup
    simp [hq, hmid, clearTimeoutFor_sessionStore, alookup_aerase_self]
  · intro cfg alive msg now mid h1 h2
    exact handleMessage_ignored cfg alive (st.cleanup r) msg now
      (Or.inr (Or.inr (Or.inr (Or.inr ⟨mid, h1, h6 mid h2⟩))))
  · intro h1 h2 h3 h4
    have hq : st.clearTimeoutFor r = st := by
      unfold MState.clearTimeoutFor
      rw [h4]
    unfold MState.cleanup
    rw [hq]
    simp only [h1]
    rw [aerase_of_absent _ _ h1, aerase_of_absent _ _ h2, aerase_of_absent _ _ h3]

/-- Witness for C7_cleanup_removes_all: cleaning up the attached request
"r1", then checking its former ref "m1" is dead, and that cleaning up the
absent id "zz" on the empty manager is a no-op. -/
theorem C7_cleanup_witness :
    alookup (stAttached.cleanup "r1").pendingStore.requests "r1" = none ∧
    alookup (stAttached.cleanup "r1").sessionStore.messageToRequest "m1" = none ∧
    (stAttached.cleanup "r1").getRequestByMessageId "m1" = none ∧
    DiscordHandler.handleMessage cfgX aliveT (stAttached.cleanup "r1") replyToM1 3 =
      (stAttached.cleanup "r1", []) ∧
    mgr0.cleanup "zz" = mgr0 :=
  ⟨(C7_cleanup_removes_all stAttached "r1").1,
   (C7_cleanup_removes_all stAttached "r1").2.2.2.2.1 reqAttached "m1" (by decide)
     (by decide),
   (C7_cleanup_removes_all stAttached "r1").2.2.2.2.2.1 "m1" (by decide),
   (C7_cleanup_removes_all stAttached "r1").2.2.2.2.2.2.1 cfgX aliveT replyToM1 3
     "m1" rfl (by decide),
   (C7_cleanup_removes_all mgr0 "zz").2.2.2.2.2.2.2 (by decide) (by decide)
     (by decide) (by decide)⟩

/-! ## Claim C5: button routing -/

/-- Claim C5 (counterexample): a well-shaped token resolving to a stored
request with an options list and an in-range index records NO answer when
the selected label is the empty string — refuting the unconditional
"the answer recorded is exactly the option label at the index". -/
theorem C5_counterexample :
    jsSplitColon "req:r9:0" = ["req", "r9", "0"] ∧
    stEmptyLbl.getRequest "r9" = some reqEmptyLbl ∧
    reqEmptyLbl.options = some [""] ∧
    jsParseInt "0" = some 0 ∧
    jsIndex [""] (0 : Int) = some "" ∧
    DiscordHandler.handleButton aliveT stEmptyLbl "req:r9:0" 7 = (stEmptyLbl, []) ∧
    alookup (DiscordHandler.handleButton aliveT stEmptyLbl "req:r9:0"
        7).1.pendingStore.responses "r9" = none := by
  decide

/-- Claim C5 (amended): for a token of shape req:requestId:index resolving
to a stored request with an options list, an in-range index, and a
NON-EMPTY label at that index, the recorded answer is exactly that label;
an interaction with a malformed token, an unknown request id, or an index
that selects no option is ignored (state unchanged, nothing emitted). -/
theorem C5_button_routing (alive : Nat → Bool) (st : MState) (customId : String)
    (now : Nat) :
    (∀ r ixStr req options i label,
      jsSplitColon customId = ["req", r, ixStr] →
      st.getRequest r = some req →
      req.options = some options →
      jsParseInt ixStr = some i →
      jsIndex options i = some label →
      ¬ label = "" →
      alookup (DiscordHandler.handleButton alive st customId
          now).1.pendingStore.responses r =
        some { requestId := r, status := PendingStatus.answered,
               response := some label, answeredAt := some now, error := none }) ∧
    ((∀ r ixStr, ¬ jsSplitColon customId = ["req", r, ixStr]) →
      DiscordHandler.handleButton alive st customId now = (st, [])) ∧
    (∀ r ixStr, jsSplitColon customId = ["req", r, ixStr] →
      st.getRequest r = none →
      DiscordHandler.handleButton alive st customId now = (st, [])) ∧
    (∀ r ixStr req options, jsSplitColon customId = ["req", r, ixStr] →
      st.getRequest r = some req → req.options = some options →
      (match jsParseInt ixStr with
       | some i => jsIndex options i = none
       | none => True) →
      DiscordHandler.handleButton alive st customId now = (st, [])) := by
  refine ⟨?_, ?_, ?_, ?_⟩
  · intro r ixStr req options i label hsplit hreq hopts hparse hidx hlabel
    simp only [DiscordHandler.handleButton, hsplit, hreq, hopts, hparse, hidx]
    rw [if_neg (by decide)]
    rw [if_neg hlabel]
    exact processResponse_lookup alive st r label now
  · intro hshape
    unfold DiscordHandler.handleButton
    rcases h : jsSplitColon customId with _ | ⟨p0, _ | ⟨q1, _ | ⟨q2, rest⟩⟩⟩
    · rfl
    · rfl
    · rfl
    · cases rest with
      | nil =>
        have : ¬ p0 = "req" := by
          intro hp
          exact hshape q1 q2 (by rw [h, hp])
        simp [this]
      | cons q3 rest2 => rfl
  · intro r ixStr hsplit hreq
    simp [DiscordHandler.handleButton, hsplit, hreq]
  · intro r ixStr req options hsplit hreq hopts hbad
    simp only [DiscordHandler.handleButton, hsplit, hreq, hopts]
    rw [if_neg (by decide)]
    cases hp : jsParseInt ixStr with
    | none => simp [hp]
    | some i =>
      rw [hp] at hbad
      simp [hp, hbad]

/-- Witness for C5_button_routing: a click on index 1 of ["Yes", "No"]
records "No"; a malformed token, an unknown id and an out-of-range index
are each ignored. -/
theorem C5_button_routing_witness :
    alookup (DiscordHandler.handleButton aliveT stAttached "req:r1:1"
        10).1.pendingStore.responses "r1" =
      some { requestId := "r1", status := PendingStatus.answered,
             response := some "No", answeredAt := some 10, error := none } ∧
    DiscordHandler.handleButton aliveT stAttached "xx:r1:1" 10 = (stAttached, []) ∧
    DiscordHandler.handleButton aliveT stAttached "req:zz:0" 10 = (stAttached, []) ∧
    DiscordHandler.handleButton aliveT stAttached "req:r1:5" 10 = (stAttached, []) :=
  ⟨(C5_button_routing aliveT stAttached "req:r1:1" 10).1 "r1" "1" reqAttached
     ["Yes", "No"] 1 "No" (by decide) (by decide) (by decide) (by decide) (by decide)
     (by decide),
   (C5_button_routing aliveT stAttached "xx:r1:1" 10).2.1 (by
     intro r ixStr hcontra
     rw [show jsSplitColon "xx:r1:1" = ["xx", "r1", "1"] from by decide] at hcontra
     have : "xx" = "req" := (List.cons.injEq _ _ _ _).mp hcontra |>.1
     exact absurd this (by decide)),
   (C5_button_routing aliveT stAttached "req:zz:0" 10).2.2.1 "zz" "0" (by decide)
     (by decide),
   (C5_button_routing aliveT stAttached "req:r1:5" 10).2.2.2 "r1" "5" reqAttached
     ["Yes", "No"] (by decide) (by decide) (by decide)
     (show jsIndex ["Yes", "No"] (5 : Int) = none from by decide)⟩

/-! ## Claim C2: wire-message ordering on a connection -/

theorem findClient_spec (cs : List SClient) (r : String) (c : SClient)
    (h : findClient cs r = some c) : c ∈ cs ∧ c.requestId = some r := by
  induction cs with
  | nil => cases h
  | cons hd tl ih =>
    unfold findClient at h
    by_cases hr : hd.requestId = some r
    · rw [if_pos hr] at h
      injection h with h1
      subst h1
      exact ⟨List.mem_cons_self _ _, hr⟩
    · rw [if_neg hr] at h
      obtain ⟨h1, h2⟩ := ih h
      exact ⟨List.mem_cons_of_mem _ h1, h2⟩

theorem ackBefore_nil : ackBefore [] := by
  intro pre cid m post h r hr
  cases pre <;> cases h

theorem ackBefore_cons (log : List (Nat × SMsg)) (cid : Nat) (msg : SMsg)
    (hlog : ackBefore log)
    (hterm : ∀ r, isTerminalMsg msg = some r → ∃ d, (cid, SMsg.ack r d) ∈ log) :
    ackBefore ((cid, msg) :: log) := by
  intro pre c m post h r hr
  cases pre with
  | nil =>
    rw [List.nil_append] at h
    injection h with h1 h2
    injection h1 with hc hm
    subst hc
    subst hm
    subst h2
    exact hterm r hr
  | cons e pre2 =>
    rw [List.cons_append] at h
    injection h with h1 h2
    exact hlog pre2 c m post h2 r hr

theorem serverInv_setMgr (st : SState) (mgr2 : MState) (h : serverInv st) :
    serverInv { st with mgr := mgr2 } := h

theorem serverInv_sendTo_nonterm (st : SState) (cid : Nat) (msg : SMsg)
    (h : serverInv st) (hm : isTerminalMsg msg = none) :
    serverInv (st.sendTo cid msg) := by
  obtain ⟨hc, ha⟩ := h
  constructor
  · intro c hcmem r hr
    obtain ⟨d, hd⟩ := hc c hcmem r hr
    exact ⟨d, List.mem_cons_of_mem _ hd⟩
  · exact ackBefore_cons st.log cid msg ha (fun r hr => by rw [hm] at hr; cases hr)

theorem serverInv_notify (st : SState) (rid : String) (msg : SMsg)
    (h : serverInv st) (hm : ∀ r, isTerminalMsg msg = some r → r = rid) :
    serverInv (st.notifyClient rid msg) := by
  obtain ⟨hc, ha⟩ := h
  unfold SState.notifyClient
  cases hf : findClient st.clients rid with
  | none => exact ⟨hc, ha⟩
  | some c =>
    obtain ⟨hmem, hrid⟩ := findClient_spec st.clients rid c hf
    constructor
    · intro c2 hc2 r hr
      obtain ⟨d, hd⟩ := hc c2 hc2 r hr
      exact ⟨d, List.mem_cons_of_mem _ hd⟩
    · refine ackBefore_cons st.log c.connId msg ha (fun r hr => ?_)
      rw [hm r hr]
      exact hc c hmem rid hrid

theorem serverInv_dispatchEvent (st : SState) (ev : PMEvent) (h : serverInv st) :
    serverInv (st.dispatchEvent ev) := by
  cases ev with
  | response r resp t =>
    exact serverInv_notify st r _ h (fun r0 h0 => (Option.some.inj h0).symm)
  | timeout r =>
    exact serverInv_notify st r _ h (fun r0 h0 => (Option.some.inj h0).symm)

theorem serverInv_dispatchEvents (st : SState) (evs : List PMEvent)
    (h : serverInv st) : serverInv (st.dispatchEvents evs) := by
  induction evs generalizing st with
  | nil => exact h
  | cons e evs ih => exact ih _ (serverInv_dispatchEvent st e h)

theorem serverInv_step (cfg : Config) (alive : Nat → Bool) (st : SState) (ev : Ev)
    (h : serverInv st) : serverInv (step cfg alive st ev) := by
  cases ev with
  | connect cid =>
    obtain ⟨hc, ha⟩ := h
    refine ⟨?_, ha⟩
    intro c hcmem r hr
    rcases List.mem_cons.mp hcmem with hceq | hcm
    · subst hceq
      cases hr
    · exact hc c hcm r hr
  | disconnect cid =>
    obtain ⟨hc, ha⟩ := h
    refine ⟨?_, ha⟩
    intro c hcmem r hr
    exact hc c (List.mem_of_mem_filter hcmem) r hr
  | sendReq cid id message si mid now =>
    exact serverInv_sendTo_nonterm _ cid _ (serverInv_setMgr st _ h) rfl
  | askReq cid id message options timeoutOpt noWait si mid now =>
    obtain ⟨hc, ha⟩ := h
    constructor
    · intro c hcmem r hr
      obtain ⟨c0, hc0mem, hc0eq⟩ := List.mem_map.mp hcmem
      by_cases hcid : c0.connId = cid
      · rw [if_pos hcid] at hc0eq
        subst hc0eq
        simp only at hr
        injection hr with hrr
        refine ⟨mid, ?_⟩
        simp only [hcid]
        rw [← hrr]
        exact List.mem_cons_self _ _
      · rw [if_neg hcid] at hc0eq
        subst hc0eq
        obtain ⟨d, hd⟩ := hc c0 hc0mem r hr
        exact ⟨d, List.mem_cons_of_mem _ hd⟩
    · exact ackBefore_cons st.log cid _ ha (fun r hr => by cases hr)
  | statusReq cid requestId =>
    show serverInv (st.handleStatus cid requestId)
    unfold SState.handleStatus
    cases hq : st.mgr.getRequest requestId with
    | none => exact serverInv_sendTo_nonterm st cid _ h rfl
    | some req => exact h
  | cancelReq cid requestId =>
    exact serverInv_sendTo_nonterm _ cid _ (serverInv_setMgr st _ h) rfl
  | fireTimer t =>
    exact serverInv_dispatchEvents _ _ (serverInv_setMgr st _ h)
  | reply m now =>
    exact serverInv_dispatchEvents _ _ (serverInv_setMgr st _ h)
  | button customId now =>
    exact serverInv_dispatchEvents _ _ (serverInv_setMgr st _ h)

theorem serverInv_run (cfg : Config) (alive : Nat → Bool) (st : SState)
    (evs : List Ev) (h : serverInv st) : serverInv (run cfg alive st evs) := by
  induction evs generalizing st with
  | nil => exact h
  | cons ev evs ih => exact ih _ (serverInv_step cfg alive st ev h)

theorem serverInv_init (pendingFile : FileState PendingStore)
    (sessionFile : FileState SessionStore) :
    serverInv (initServer pendingFile sessionFile) :=
  ⟨fun c hc _ _ => absurd hc (List.not_mem_nil c), ackBefore_nil⟩

/-- Claim C2 (counterexample): one connection asks "r1" and, after the
timeout already delivered a Timeout message, a late button answer delivers
a second terminal message (Response) to the same connection — refuting
"at most one terminal message is ever delivered". -/
theorem C2_counterexample :
    (run cfgX aliveT (initServer FileState.missing FileState.missing)
        evsTwoTerminals).log =
      [(1, SMsg.response "r1" "No" 10), (1, SMsg.timeoutMsg "r1"),
       (1, SMsg.ack "r1" "m1")] ∧
    terminalCount (run cfgX aliveT (initServer FileState.missing FileState.missing)
        evsTwoTerminals).log 1 = 2 := by
  decide

/-- Claim C2 (amended): in every daemon run, the Ack for a request always
precedes (is older than) any terminal Response or Timeout message
delivered to a connection for that request; but more than one terminal
message can be delivered to the same connection (see the counterexample). -/
theorem C2_ack_precedes_terminal (cfg : Config) (alive : Nat → Bool)
    (pendingFile : FileState PendingStore) (sessionFile : FileState SessionStore)
    (evs : List Ev) :
    ackBefore (run cfg alive (initServer pendingFile sessionFile) evs).log :=
  (serverInv_run cfg alive (initServer pendingFile sessionFile) evs
    (serverInv_init pendingFile sessionFile)).2

/-- Witness for C2_ack_precedes_terminal instantiated at the concrete
two-terminal run; the Timeout at position 1 of the log indeed has the Ack
behind it. -/
theorem C2_ack_precedes_witness :
    ackBefore (run cfgX aliveT (initServer FileState.missing FileState.missing)
      evsTwoTerminals).log :=
  C2_ack_precedes_terminal cfgX aliveT FileState.missing FileState.missing
    evsTwoTerminals
